import Mathlib

/-!
Verification of the sentiment scoring and fusion layer of the
Social-Media-Analytics-Module-for-Business repository.

The embedding is shallow: Python floats are modelled as rationals (the
fusion formulas are exact arithmetic over the upstream scores), sentiment
labels are the literal strings the code produces, dictionaries become
structures, and fallible operations return `Except`/`Option`.  The external
lexical scorers (VADER, TextBlob) only feed numeric scores into the core,
so each core operation is parametrised by those upstream scores.
-/

namespace SocialMediaAnalytics

/-! ## Text analyzer (`analyzers/text_analyzer.py`)

`analyze_sentiment_vader` consumes the VADER compound score,
`analyze_sentiment_textblob` the TextBlob polarity/subjectivity pair, and
`combined_sentiment` fuses the two with fixed weights 0.6/0.4.
-/

/-- Result record of `TextAnalyzer.analyze_sentiment_vader`
(the fields the core consumes: compound score, label, confidence). -/
structure VaderResult where
  compound : ℚ
  label : String
  confidence : ℚ
  deriving DecidableEq, Repr

/-- `TextAnalyzer.analyze_sentiment_vader`, lines 72-95: classify the VADER
compound score with inclusive thresholds `>= 0.05` / `<= -0.05`. -/
def analyze_sentiment_vader (compound : ℚ) : VaderResult :=
  { compound := compound
    label :=
      if compound ≥ 5/100 then "Positive"
      else if compound ≤ -(5/100) then "Negative"
      else "Neutral"
    confidence := |compound| }

/-- Result record of `TextAnalyzer.analyze_sentiment_textblob`. -/
structure TextBlobResult where
  polarity : ℚ
  subjectivity : ℚ
  label : String
  deriving DecidableEq, Repr

/-- `TextAnalyzer.analyze_sentiment_textblob`, lines 97-118: classify the
TextBlob polarity with strict thresholds `> 0.05` / `< -0.05`. -/
def analyze_sentiment_textblob (polarity subjectivity : ℚ) : TextBlobResult :=
  { polarity := polarity
    subjectivity := subjectivity
    label :=
      if polarity > 5/100 then "Positive"
      else if polarity < -(5/100) then "Negative"
      else "Neutral" }

/-- Result record of `TextAnalyzer.combined_sentiment`. -/
structure CombinedResult where
  vader_score : ℚ
  textblob_polarity : ℚ
  textblob_subjectivity : ℚ
  combined_score : ℚ
  label : String
  confidence : ℚ
  deriving DecidableEq, Repr

/-- `TextAnalyzer.combined_sentiment`, lines 120-148: weighted fusion
`compound * 0.6 + polarity * 0.4`, labelled with the inclusive
`>= 0.05` / `<= -0.05` thresholds, confidence the absolute value. -/
def combined_sentiment (compound polarity subjectivity : ℚ) : CombinedResult :=
  let v := analyze_sentiment_vader compound
  let t := analyze_sentiment_textblob polarity subjectivity
  let combined_score := v.compound * (6/10) + t.polarity * (4/10)
  { vader_score := v.compound
    textblob_polarity := t.polarity
    textblob_subjectivity := t.subjectivity
    combined_score := combined_score
    label :=
      if combined_score ≥ 5/100 then "Positive"
      else if combined_score ≤ -(5/100) then "Negative"
      else "Neutral"
    confidence := |combined_score| }

/-- Claim C1: for every pair of upstream scores (social compound, general
polarity) in `[-1,1] × [-1,1]`, `combined_sentiment` returns a
`combined_score` exactly equal to `0.6 * compound + 0.4 * polarity` and a
confidence exactly equal to the absolute value of that combined score. -/
theorem combined_sentiment_weighted_formula (s g subj : ℚ)
    (hs1 : -1 ≤ s) (hs2 : s ≤ 1) (hg1 : -1 ≤ g) (hg2 : g ≤ 1) :
    (combined_sentiment s g subj).combined_score = 6/10 * s + 4/10 * g ∧
    (combined_sentiment s g subj).confidence = |6/10 * s + 4/10 * g| := by
  constructor
  · show s * (6/10) + g * (4/10) = 6/10 * s + 4/10 * g
    ring
  · show |s * (6/10) + g * (4/10)| = |6/10 * s + 4/10 * g|
    ring_nf

/-- Witness for C1 at the spec's example scenario 1: compound `0.85`,
polarity `0.5`, combined `0.71`. -/
theorem combined_sentiment_weighted_formula_witness :
    (-1 ≤ (17/20 : ℚ) ∧ (17/20 : ℚ) ≤ 1 ∧ -1 ≤ (1/2 : ℚ) ∧ (1/2 : ℚ) ≤ 1) ∧
    (combined_sentiment (17/20) (1/2) 0).combined_score = 6/10 * (17/20) + 4/10 * (1/2) ∧
    (combined_sentiment (17/20) (1/2) 0).confidence = |6/10 * (17/20) + 4/10 * (1/2)| :=
  ⟨by norm_num,
   combined_sentiment_weighted_formula (17/20) (1/2) 0
     (by norm_num) (by norm_num) (by norm_num) (by norm_num)⟩

/-- Claim C2, counterexample: the claim asserts that all three text-scoring
operations use inclusive thresholds, in particular at the boundary value
`0.05`.  `analyze_sentiment_textblob` compares with strict `>` / `<`
(lines 106-108), so at polarity exactly `0.05` it labels `Neutral`,
not `Positive`. -/
theorem textblob_boundary_not_positive :
    (analyze_sentiment_textblob (5/100) 0).label = "Neutral" ∧
    ¬ (analyze_sentiment_textblob (5/100) 0).label = "Positive" := by
  constructor <;> norm_num [analyze_sentiment_textblob] <;> decide

/-- Claim C2 (amended): the VADER scoring and the combined fusion label a
score `x` as Positive iff `x ≥ 0.05`, Negative iff `x ≤ -0.05` and Neutral
otherwise (inclusive boundaries), while the TextBlob scoring uses the same
threshold magnitudes with strict comparisons: Positive iff `x > 0.05`,
Negative iff `x < -0.05`, Neutral otherwise; so at the exact boundaries
`0.05` / `-0.05` TextBlob answers Neutral where the other two answer
Positive / Negative. -/
theorem label_threshold_characterization (x subj s g gsubj : ℚ) :
    ((analyze_sentiment_vader x).label = "Positive" ↔ 5/100 ≤ x) ∧
    ((analyze_sentiment_vader x).label = "Negative" ↔ x ≤ -(5/100)) ∧
    ((analyze_sentiment_vader x).label = "Neutral" ↔ -(5/100) < x ∧ x < 5/100) ∧
    ((analyze_sentiment_textblob x subj).label = "Positive" ↔ 5/100 < x) ∧
    ((analyze_sentiment_textblob x subj).label = "Negative" ↔ x < -(5/100)) ∧
    ((analyze_sentiment_textblob x subj).label = "Neutral" ↔ -(5/100) ≤ x ∧ x ≤ 5/100) ∧
    ((combined_sentiment s g gsubj).label = "Positive" ↔
      5/100 ≤ (combined_sentiment s g gsubj).combined_score) ∧
    ((combined_sentiment s g gsubj).label = "Negative" ↔
      (combined_sentiment s g gsubj).combined_score ≤ -(5/100)) ∧
    ((combined_sentiment s g gsubj).label = "Neutral" ↔
      -(5/100) < (combined_sentiment s g gsubj).combined_score ∧
      (combined_sentiment s g gsubj).combined_score < 5/100) ∧
    (analyze_sentiment_vader (5/100)).label = "Positive" ∧
    (analyze_sentiment_textblob (5/100) 0).label = "Neutral" := by
  refine ⟨?_, ?_, ?_, ?_, ?_, ?_, ?_, ?_, ?_, ?_, ?_⟩ <;>
    simp only [analyze_sentiment_vader, analyze_sentiment_textblob, combined_sentiment] <;>
    split_ifs <;> simp_all <;> linarith

/-! ## Batch analysis and summary (`analyzers/text_analyzer.py`, lines 169-198)

`analyze_batch` builds `pd.DataFrame(results)`.  Pandas creates one column
per key occurring in the record list, so the frame built from an empty list
of texts has no columns at all; any later column access such as
`df['label']` then raises `KeyError`.  The model keeps the rows together
with a flag recording whether the sentiment columns exist, and
`get_sentiment_summary` returns `Except`, with `Except.error` standing for
a raised Python exception. -/

/-- Model of the pandas DataFrame produced by `TextAnalyzer.analyze_batch`:
the per-text `combined_sentiment` rows plus whether the frame has the
`label` / `combined_score` columns (it does iff at least one record was
supplied to the `pd.DataFrame` constructor). -/
structure BatchFrame where
  rows : List CombinedResult
  has_sentiment_columns : Bool
  deriving DecidableEq, Repr

/-- `TextAnalyzer.analyze_batch`, lines 169-181: run `combined_sentiment`
on each text (each text represented by its upstream
compound/polarity/subjectivity scores) and collect the results in a
DataFrame. -/
def analyze_batch (inputs : List (ℚ × ℚ × ℚ)) : BatchFrame :=
  { rows := inputs.map (fun t => combined_sentiment t.1 t.2.1 t.2.2)
    has_sentiment_columns := !inputs.isEmpty }

/-- The summary record built by `TextAnalyzer.get_sentiment_summary`
(`avg_sentiment`, `sentiment_std`, `most_positive`, `most_negative` are
`Option`s: pandas yields `NaN`/`None` for them on degenerate input). -/
structure SentimentSummary where
  total_posts : ℕ
  positive_count : ℕ
  negative_count : ℕ
  neutral_count : ℕ
  avg_sentiment : Option ℚ
  positive_percentage : ℚ
  negative_percentage : ℚ
  neutral_percentage : ℚ
  deriving DecidableEq, Repr

/-- `TextAnalyzer.get_sentiment_summary`, lines 183-198.  Every count is a
filtered length of the `label` column, and each percentage is guarded by
`if len(df) > 0 else 0`.  Accessing `df['label']` on a frame without that
column raises `KeyError: 'label'`, modelled as `Except.error`. -/
def get_sentiment_summary (df : BatchFrame) : Except String SentimentSummary :=
  if df.has_sentiment_columns = false then
    Except.error "KeyError: label"
  else
    let n := df.rows.length
    let pos := (df.rows.filter (fun r => r.label == "Positive")).length
    let neg := (df.rows.filter (fun r => r.label == "Negative")).length
    let neu := (df.rows.filter (fun r => r.label == "Neutral")).length
    Except.ok
      { total_posts := n
        positive_count := pos
        negative_count := neg
        neutral_count := neu
        avg_sentiment :=
          if n = 0 then none
          else some ((df.rows.map (fun r => r.combined_score)).sum / (n : ℚ))
        positive_percentage := if 0 < n then (pos : ℚ) / (n : ℚ) * 100 else 0
        negative_percentage := if 0 < n then (neg : ℚ) / (n : ℚ) * 100 else 0
        neutral_percentage := if 0 < n then (neu : ℚ) / (n : ℚ) * 100 else 0 }

/-- Claim C3 (code bug): applied to the empty batch, `get_sentiment_summary`
does not return the guarded zero summary: `pd.DataFrame([])` has no
columns, so the very first filtered count `df[df['label'] == 'Positive']`
raises `KeyError: 'label'` before any of the `if len(df) > 0 else 0`
guards (which show the intended graceful behaviour) can apply. -/
theorem get_sentiment_summary_empty_batch_raises :
    get_sentiment_summary (analyze_batch []) = Except.error "KeyError: label" ∧
    ∀ s : SentimentSummary, get_sentiment_summary (analyze_batch []) ≠ Except.ok s := by
  refine ⟨rfl, fun s h => ?_⟩
  simp [analyze_batch, get_sentiment_summary] at h

/-! ## Emoji analyzer (`analyzers/emoji_analyzer.py`)

`extract_emojis` / `extract_emoticons` (the SymbolicSignalExtractor) map
each matched symbol to one of the strings `positive` / `negative` /
`neutral` via static tables; `analyze_emoji_sentiment` then fuses the two
match lists.  The fusion is modelled directly over the two lists of match
sentiments, exactly as the code consumes them. -/

/-- Number of matches carrying a given sentiment string
(`Counter(all_sentiments).get(s, 0)`). -/
def sentimentCount (l : List String) (s : String) : ℕ :=
  (l.filter (fun x => x == s)).length

/-- The fields of the `EmojiAnalyzer.analyze_emoji_sentiment` result the
claims are about. -/
structure EmojiSentimentResult where
  total_symbol_count : ℕ
  emoji_sentiment_score : ℚ
  overall_emoji_sentiment : String
  deriving DecidableEq, Repr

/-- `EmojiAnalyzer.analyze_emoji_sentiment`, lines 104-147: concatenate the
emoji-match and emoticon-match sentiment lists; with zero matches the score
is `0.0` and the label `no_emoji`, otherwise
`score = (positive - negative) / total` with thresholds `> 0.1` / `< -0.1`. -/
def analyze_emoji_sentiment (emojiSents emoticonSents : List String) :
    EmojiSentimentResult :=
  let all_sentiments := emojiSents ++ emoticonSents
  let total := all_sentiments.length
  if total = 0 then
    { total_symbol_count := 0
      emoji_sentiment_score := 0
      overall_emoji_sentiment := "no_emoji" }
  else
    let pos := sentimentCount all_sentiments "positive"
    let neg := sentimentCount all_sentiments "negative"
    let score := ((pos : ℚ) - (neg : ℚ)) / (total : ℚ)
    { total_symbol_count := total
      emoji_sentiment_score := score
      overall_emoji_sentiment :=
        if score > 1/10 then "positive"
        else if score < -(1/10) then "negative"
        else "neutral" }

/-- Claim C4: whenever zero emoji and zero emoticon matches are found,
`analyze_emoji_sentiment` returns score exactly `0` and the overall label
`no_emoji`, a fourth category distinct from `neutral`. -/
theorem emoji_sentiment_zero_matches (e m : List String)
    (he : e = []) (hm : m = []) :
    (analyze_emoji_sentiment e m).emoji_sentiment_score = 0 ∧
    (analyze_emoji_sentiment e m).overall_emoji_sentiment = "no_emoji" ∧
    (analyze_emoji_sentiment e m).overall_emoji_sentiment ≠ "neutral" := by
  subst he hm
  refine ⟨rfl, rfl, ?_⟩
  decide

/-- Witness for C4 at the empty match lists. -/
theorem emoji_sentiment_zero_matches_witness :
    (analyze_emoji_sentiment [] []).emoji_sentiment_score = 0 ∧
    (analyze_emoji_sentiment [] []).overall_emoji_sentiment = "no_emoji" ∧
    (analyze_emoji_sentiment [] []).overall_emoji_sentiment ≠ "neutral" :=
  emoji_sentiment_zero_matches [] [] rfl rfl

/-- Matches of a sentiment in a concatenation split additively. -/
theorem sentimentCount_append (a b : List String) (s : String) :
    sentimentCount (a ++ b) s = sentimentCount a s + sentimentCount b s := by
  simp [sentimentCount, List.filter_append]

/-- With at least one match, the overall emoji label is the threshold
function of the score. -/
theorem analyze_emoji_label_eq (e m : List String) (h : (e ++ m).length ≠ 0) :
    (analyze_emoji_sentiment e m).overall_emoji_sentiment =
      (if (analyze_emoji_sentiment e m).emoji_sentiment_score > 1/10 then "positive"
       else if (analyze_emoji_sentiment e m).emoji_sentiment_score < -(1/10) then "negative"
       else "neutral") := by
  have h' : ¬(e = [] ∧ m = []) := by
    rintro ⟨rfl, rfl⟩
    exact h rfl
  simp [analyze_emoji_sentiment, h']

/-- With at least one match, the score is the signed count ratio. -/
theorem analyze_emoji_score_eq (e m : List String) (h : ¬(e = [] ∧ m = [])) :
    (analyze_emoji_sentiment e m).emoji_sentiment_score =
      ((sentimentCount (e ++ m) "positive" : ℚ) -
        (sentimentCount (e ++ m) "negative" : ℚ)) / ((e ++ m).length : ℚ) := by
  simp [analyze_emoji_sentiment, h]

/-- Claim C5: with at least one emoji or emoticon match,
`analyze_emoji_sentiment` computes
`score = (positive_count - negative_count) / total_symbol_count` and labels
positive iff `score > 0.1`, negative iff `score < -0.1`, neutral otherwise. -/
theorem emoji_sentiment_score_and_label (e m : List String)
    (h : e ++ m ≠ []) :
    (analyze_emoji_sentiment e m).emoji_sentiment_score =
      ((sentimentCount (e ++ m) "positive" : ℚ) -
        (sentimentCount (e ++ m) "negative" : ℚ)) / ((e ++ m).length : ℚ) ∧
    ((analyze_emoji_sentiment e m).overall_emoji_sentiment = "positive" ↔
      (analyze_emoji_sentiment e m).emoji_sentiment_score > 1/10) ∧
    ((analyze_emoji_sentiment e m).overall_emoji_sentiment = "negative" ↔
      (analyze_emoji_sentiment e m).emoji_sentiment_score < -(1/10)) ∧
    ((analyze_emoji_sentiment e m).overall_emoji_sentiment = "neutral" ↔
      -(1/10) ≤ (analyze_emoji_sentiment e m).emoji_sentiment_score ∧
      (analyze_emoji_sentiment e m).emoji_sentiment_score ≤ 1/10) := by
  have hlen : (e ++ m).length ≠ 0 := fun hl => h (List.length_eq_zero.mp hl)
  have hne : ¬(e = [] ∧ m = []) := by
    rintro ⟨rfl, rfl⟩
    exact h rfl
  refine ⟨by simp [analyze_emoji_sentiment, hne], ?_, ?_, ?_⟩ <;>
    rw [analyze_emoji_label_eq e m hlen] <;>
    split_ifs <;> simp_all <;> linarith

/-- Witness for C5 at the spec's example scenario 2: matches
positive/negative/positive give score `(2 - 1)/3` and label positive. -/
theorem emoji_sentiment_score_and_label_witness :
    (["positive", "negative", "positive"] ++ ([] : List String) ≠ []) ∧
    (analyze_emoji_sentiment ["positive", "negative", "positive"]
      []).emoji_sentiment_score = ((2 : ℚ) - 1) / 3 ∧
    (analyze_emoji_sentiment ["positive", "negative", "positive"]
      []).overall_emoji_sentiment = "positive" := by
  have h := emoji_sentiment_score_and_label ["positive", "negative", "positive"] []
    (by decide)
  have hp : sentimentCount (["positive", "negative", "positive"] ++ []) "positive" = 2 := rfl
  have hn : sentimentCount (["positive", "negative", "positive"] ++ []) "negative" = 1 := rfl
  have hl : ((["positive", "negative", "positive"] : List String) ++ []).length = 3 := rfl
  refine ⟨by decide, ?_, ?_⟩
  · rw [h.1, hp, hn, hl]
    norm_num
  · refine (h.2.1).mpr ?_
    rw [h.1, hp, hn, hl]
    norm_num

/-- Claim C9: for any match multiset with at least one symbol, doubling the
match lists (hence the positive, negative and total counts simultaneously)
leaves the score and the assigned label unchanged. -/
theorem emoji_sentiment_duplication_invariant (e m : List String)
    (h : e ++ m ≠ []) :
    (analyze_emoji_sentiment (e ++ e) (m ++ m)).emoji_sentiment_score =
      (analyze_emoji_sentiment e m).emoji_sentiment_score ∧
    (analyze_emoji_sentiment (e ++ e) (m ++ m)).overall_emoji_sentiment =
      (analyze_emoji_sentiment e m).overall_emoji_sentiment := by
  have h1 : (e ++ m).length ≠ 0 := fun hl => h (List.length_eq_zero.mp hl)
  have h2 : ((e ++ e) ++ (m ++ m)).length ≠ 0 := by
    simp only [List.length_append] at h1 ⊢
    omega
  have hcount : ∀ s, sentimentCount ((e ++ e) ++ (m ++ m)) s =
      2 * sentimentCount (e ++ m) s := by
    intro s
    simp only [sentimentCount_append]
    omega
  have hlen : ((e ++ e) ++ (m ++ m)).length = 2 * (e ++ m).length := by
    simp only [List.length_append]
    omega
  have hq : ((e ++ m).length : ℚ) ≠ 0 := Nat.cast_ne_zero.mpr h1
  have hne1 : ¬(e = [] ∧ m = []) := by
    rintro ⟨rfl, rfl⟩
    exact h rfl
  have hne2 : ¬(e ++ e = [] ∧ m ++ m = []) := by
    rintro ⟨he, hm⟩
    rcases List.append_eq_nil.mp he with ⟨rfl, -⟩
    rcases List.append_eq_nil.mp hm with ⟨rfl, -⟩
    exact h rfl
  have hscore : (analyze_emoji_sentiment (e ++ e) (m ++ m)).emoji_sentiment_score =
      (analyze_emoji_sentiment e m).emoji_sentiment_score := by
    have key : ∀ p n t : ℚ, t ≠ 0 → (2 * p - 2 * n) / (2 * t) = (p - n) / t := by
      intro p n t ht
      rw [show (2 : ℚ) * p - 2 * n = 2 * (p - n) by ring,
        mul_div_mul_left _ _ (two_ne_zero (α := ℚ))]
    rw [analyze_emoji_score_eq (e ++ e) (m ++ m) hne2, analyze_emoji_score_eq e m hne1,
      hcount "positive", hcount "negative", hlen]
    push_cast
    exact key _ _ _ hq
  refine ⟨hscore, ?_⟩
  rw [analyze_emoji_label_eq (e ++ e) (m ++ m) h2, analyze_emoji_label_eq e m h1, hscore]

/-- Witness for C9 at the example match list positive/negative/positive. -/
theorem emoji_sentiment_duplication_invariant_witness :
    (["positive", "negative", "positive"] ++ ([] : List String) ≠ []) ∧
    (analyze_emoji_sentiment
        (["positive", "negative", "positive"] ++ ["positive", "negative", "positive"])
        ([] ++ [])).emoji_sentiment_score =
      (analyze_emoji_sentiment ["positive", "negative", "positive"]
        []).emoji_sentiment_score ∧
    (analyze_emoji_sentiment
        (["positive", "negative", "positive"] ++ ["positive", "negative", "positive"])
        ([] ++ [])).overall_emoji_sentiment =
      (analyze_emoji_sentiment ["positive", "negative", "positive"]
        []).overall_emoji_sentiment :=
  ⟨by decide,
   emoji_sentiment_duplication_invariant ["positive", "negative", "positive"] []
     (by decide)⟩

/-! ## Image analyzer (`analyzers/image_analyzer.py`, lines 183-233)

`analyze_image` receives the dominant colors (name and percentage of the
image, from the external K-means stage) and the mean brightness, and
derives `image_sentiment` from the cumulative warm and cool percentages
weighted by brightness. -/

/-- Cumulative percentage of the warm dominant colors
(`red`, `orange`, `yellow`, `pink`), lines 213-216. -/
def warm_color_percentage (colors : List (String × ℚ)) : ℚ :=
  ((colors.filter (fun c =>
    c.1 == "red" || c.1 == "orange" || c.1 == "yellow" || c.1 == "pink")).map
      (fun c => c.2)).sum

/-- Cumulative percentage of the cool dominant colors
(`blue`, `green`, `purple`), lines 217-220. -/
def cool_color_percentage (colors : List (String × ℚ)) : ℚ :=
  ((colors.filter (fun c =>
    c.1 == "blue" || c.1 == "green" || c.1 == "purple")).map
      (fun c => c.2)).sum

/-- The `image_sentiment` decision of `ImageAnalyzer.analyze_image`,
lines 222-227: warm > cool and brightness > 120 gives positive, cool > warm
and brightness < 80 gives negative, anything else neutral. -/
def image_sentiment (colors : List (String × ℚ)) (brightness_value : ℚ) :
    String :=
  let warm_colors := warm_color_percentage colors
  let cool_colors := cool_color_percentage colors
  if warm_colors > cool_colors ∧ brightness_value > 120 then "positive"
  else if cool_colors > warm_colors ∧ brightness_value < 80 then "negative"
  else "neutral"

/-- Claim C7: the visual fusion is positive iff warm percentage exceeds cool
and brightness exceeds 120, negative iff cool exceeds warm and brightness is
below 80, and neutral in every other case; the spec's example
(warm 70, cool 10, brightness 150) is labelled positive. -/
theorem image_sentiment_characterization (colors : List (String × ℚ)) (b : ℚ) :
    (image_sentiment colors b = "positive" ↔
      warm_color_percentage colors > cool_color_percentage colors ∧ b > 120) ∧
    (image_sentiment colors b = "negative" ↔
      cool_color_percentage colors > warm_color_percentage colors ∧ b < 80) ∧
    (image_sentiment colors b = "neutral" ↔
      ¬(warm_color_percentage colors > cool_color_percentage colors ∧ b > 120) ∧
      ¬(cool_color_percentage colors > warm_color_percentage colors ∧ b < 80)) ∧
    image_sentiment [("red", 70), ("blue", 10), ("gray", 20)] 150 = "positive" := by
  refine ⟨?_, ?_, ?_, ?_⟩
  · simp only [image_sentiment]
    split_ifs with h1 h2 <;> simp_all
  · simp only [image_sentiment]
    split_ifs with h1 h2 <;> simp_all
    intro hcw
    rcases h1 with ⟨hwc, -⟩
    linarith
  · simp only [image_sentiment]
    split_ifs with h1 h2 <;> simp_all
  · have hw : warm_color_percentage [("red", 70), ("blue", 10), ("gray", 20)] = 70 := by
      simp [warm_color_percentage, List.filter_cons, List.sum_cons]
    have hc : cool_color_percentage [("red", 70), ("blue", 10), ("gray", 20)] = 10 := by
      simp [cool_color_percentage, List.filter_cons, List.sum_cons]
    simp only [image_sentiment, hw, hc]
    norm_num

/-! ## Video analyzer (`analyzers/video_analyzer.py`, lines 201-246)

`analyze_video` classifies each extracted key frame independently with
`ImageAnalyzer.analyze_image` and takes
`Counter(frame_sentiments).most_common(1)[0][0]` as `dominant_sentiment`.
A `Counter` keeps its keys in first-encounter order and `most_common`
sorts stably by descending count, so on ties the returned key is the
max-count label whose first occurrence in the frame list is earliest,
equivalently the first element of the frame list whose count is maximal.
With zero frame sentiments the code takes the `else` branch and reports
`unknown`. -/

/-- Number of frames carrying a given sentiment label
(`Counter(frame_sentiments)[x]`). -/
def labelCount (frames : List String) (x : String) : ℕ :=
  (frames.filter (fun y => y == x)).length

/-- Model of `Counter(frame_sentiments).most_common(1)`: the first element
of the list (first-encounter order) whose count is maximal. -/
def most_common_label (frames : List String) : Option String :=
  frames.find? (fun k => frames.all (fun x =>
    decide (labelCount frames x ≤ labelCount frames k)))

/-- The per-frame visual features consumed by the image fusion: dominant
color percentages and mean brightness. -/
structure FrameFeatures where
  dominant_colors : List (String × ℚ)
  brightness_value : ℚ

/-- Each extracted key frame is independently classified by the visual
(image) fusion, lines 221-224. -/
def frame_sentiments (frames : List FrameFeatures) : List String :=
  frames.map (fun f => image_sentiment f.dominant_colors f.brightness_value)

/-- The `dominant_sentiment` reported by `VideoAnalyzer.analyze_video`,
lines 226-235: majority label across frames, or `unknown` with zero
frames. -/
def video_dominant_sentiment (frames : List FrameFeatures) : String :=
  if (frame_sentiments frames).isEmpty then "unknown"
  else (most_common_label (frame_sentiments frames)).getD "unknown"

/-- Every nonempty list has an element maximizing a natural-valued score. -/
theorem exists_count_argmax {α : Type} (f : α → ℕ) :
    ∀ l : List α, l ≠ [] → ∃ k ∈ l, ∀ x ∈ l, f x ≤ f k
  | [], h => absurd rfl h
  | [a], _ => ⟨a, List.mem_singleton_self a, by
      intro x hx
      rw [List.mem_singleton.mp hx]⟩
  | a :: b :: t, _ => by
    obtain ⟨k, hk, hmax⟩ := exists_count_argmax f (b :: t) (by simp)
    by_cases hfa : f a ≤ f k
    · refine ⟨k, List.mem_cons_of_mem _ hk, ?_⟩
      intro x hx
      rcases List.mem_cons.mp hx with rfl | hx
      · exact hfa
      · exact hmax x hx
    · refine ⟨a, List.mem_cons_self _ _, ?_⟩
      intro x hx
      rcases List.mem_cons.mp hx with rfl | hx
      · exact le_refl _
      · exact le_trans (hmax x hx) (le_of_not_le hfa)

/-- `find?` returns the first satisfying element: its index is minimal
among all satisfying elements. -/
theorem find?_indexOf_minimal {p : String → Bool} :
    ∀ (l : List String) (d : String), l.find? p = some d →
      ∀ k ∈ l, p k = true → List.indexOf d l ≤ List.indexOf k l
  | [], d, h => by simp at h
  | a :: t, d, h => by
    intro k hk hpk
    by_cases hpa : p a = true
    · have hd : d = a := by
        rw [List.find?_cons_of_pos t hpa] at h
        exact (Option.some_inj.mp h).symm
      subst hd
      rw [List.indexOf_cons_self]
      exact Nat.zero_le _
    · have ht : t.find? p = some d := by
        rwa [List.find?_cons_of_neg t hpa] at h
      have hda : d ≠ a := by
        intro he
        exact hpa (he ▸ List.find?_some ht)
      have hka : k ≠ a := by
        intro he
        exact hpa (he ▸ hpk)
      have hkt : k ∈ t := by
        rcases List.mem_cons.mp hk with rfl | h'
        · exact absurd rfl hka
        · exact h'
      rw [List.indexOf_cons_ne t hda.symm, List.indexOf_cons_ne t hka.symm]
      exact Nat.succ_le_succ (find?_indexOf_minimal t d ht k hkt hpk)

/-- Claim C6: with at least one extracted key frame, each frame is
independently classified by the image fusion (`frame_sentiments` is the
per-frame map of `image_sentiment`) and `dominant_sentiment` is a label of
maximal count across frames whose first occurrence in extraction order is
earliest among the labels reaching that maximal count; with zero frames it
is `unknown`. -/
theorem video_dominant_sentiment_majority (frames : List FrameFeatures) :
    (frames = [] → video_dominant_sentiment frames = "unknown") ∧
    (frames ≠ [] →
      ∃ d, video_dominant_sentiment frames = d ∧
        d ∈ frame_sentiments frames ∧
        (∀ x ∈ frame_sentiments frames,
          labelCount (frame_sentiments frames) x ≤
            labelCount (frame_sentiments frames) d) ∧
        (∀ k ∈ frame_sentiments frames,
          labelCount (frame_sentiments frames) k =
              labelCount (frame_sentiments frames) d →
            List.indexOf d (frame_sentiments frames) ≤
              List.indexOf k (frame_sentiments frames))) := by
  constructor
  · rintro rfl
    rfl
  · intro h
    have hsne : frame_sentiments frames ≠ [] := by
      simp only [frame_sentiments, ne_eq, List.map_eq_nil_iff]
      exact h
    obtain ⟨k0, hk0, hmax0⟩ :=
      exists_count_argmax (labelCount (frame_sentiments frames))
        (frame_sentiments frames) hsne
    have hpk0 : (frame_sentiments frames).all (fun x =>
        decide (labelCount (frame_sentiments frames) x ≤
          labelCount (frame_sentiments frames) k0)) = true := by
      rw [List.all_eq_true]
      intro x hx
      exact decide_eq_true (hmax0 x hx)
    have hfind : ∃ d, most_common_label (frame_sentiments frames) = some d := by
      cases hf : most_common_label (frame_sentiments frames) with
      | some d => exact ⟨d, rfl⟩
      | none =>
        have := (List.find?_eq_none.mp hf) k0 hk0
        exact absurd hpk0 this
    obtain ⟨d, hd⟩ := hfind
    have hpd := List.find?_some hd
    have hdmem : d ∈ frame_sentiments frames := List.mem_of_find?_eq_some hd
    have hdall : ∀ x ∈ frame_sentiments frames,
        labelCount (frame_sentiments frames) x ≤
          labelCount (frame_sentiments frames) d := by
      intro x hx
      exact of_decide_eq_true (List.all_eq_true.mp hpd x hx)
    have hempty : (frame_sentiments frames).isEmpty = false := by
      rw [List.isEmpty_eq_false_iff_exists_mem]
      exact ⟨d, hdmem⟩
    refine ⟨d, ?_, hdmem, hdall, ?_⟩
    · simp only [video_dominant_sentiment, hempty, Bool.false_eq_true, if_false, hd,
        Option.getD_some]
    · intro k hk hck
      refine find?_indexOf_minimal (frame_sentiments frames) d hd k hk ?_
      rw [List.all_eq_true]
      intro x hx
      exact decide_eq_true ((hdall x hx).trans (le_of_eq hck.symm))

/-- Witness for C6: the empty frame list reports `unknown`; a two-frame
video whose frames classify positive then neutral (a tie) has a dominant
label of maximal count and minimal first-occurrence index. -/
theorem video_dominant_sentiment_majority_witness :
    video_dominant_sentiment [] = "unknown" ∧
    (∃ d, video_dominant_sentiment
        [⟨[("red", 70), ("blue", 10)], 150⟩, ⟨[], 100⟩] = d ∧
      d ∈ frame_sentiments [⟨[("red", 70), ("blue", 10)], 150⟩, ⟨[], 100⟩] ∧
      (∀ x ∈ frame_sentiments [⟨[("red", 70), ("blue", 10)], 150⟩, ⟨[], 100⟩],
        labelCount (frame_sentiments [⟨[("red", 70), ("blue", 10)], 150⟩, ⟨[], 100⟩]) x ≤
          labelCount (frame_sentiments [⟨[("red", 70), ("blue", 10)], 150⟩, ⟨[], 100⟩]) d) ∧
      (∀ k ∈ frame_sentiments [⟨[("red", 70), ("blue", 10)], 150⟩, ⟨[], 100⟩],
        labelCount (frame_sentiments [⟨[("red", 70), ("blue", 10)], 150⟩, ⟨[], 100⟩]) k =
            labelCount (frame_sentiments [⟨[("red", 70), ("blue", 10)], 150⟩, ⟨[], 100⟩]) d →
          List.indexOf d (frame_sentiments [⟨[("red", 70), ("blue", 10)], 150⟩, ⟨[], 100⟩]) ≤
            List.indexOf k (frame_sentiments [⟨[("red", 70), ("blue", 10)], 150⟩, ⟨[], 100⟩]))) :=
  ⟨(video_dominant_sentiment_majority []).1 rfl,
   (video_dominant_sentiment_majority
     [⟨[("red", 70), ("blue", 10)], 150⟩, ⟨[], 100⟩]).2 (by simp)⟩

/-! ## Audio analyzer (`analyzers/audio_analyzer.py`, lines 152-183)

`analyze_audio` first tries the transcription: on success the sentiment is
delegated entirely to `TextAnalyzer.combined_sentiment` on the transcript
(represented here by the transcript's upstream scores).  Otherwise it falls
back to the estimated tone, with the Python substring tests
`'excited' in tone`, `'energetic' in tone` and `'angry' in tone`. -/

/-- Python's `needle in hay` substring test. -/
def strContains (hay needle : String) : Bool :=
  (List.range (hay.toList.length + 1)).any
    (fun i => (hay.toList.drop i).take needle.toList.length == needle.toList)

/-- `needle` occurs contiguously inside `hay`. -/
def occursIn (needle hay : String) : Prop :=
  ∃ pre post : List Char, hay.toList = pre ++ needle.toList ++ post

/-- The executable substring test agrees with the occurrence predicate. -/
theorem strContains_iff (hay needle : String) :
    strContains hay needle = true ↔ occursIn needle hay := by
  unfold strContains occursIn
  rw [List.any_eq_true]
  constructor
  · rintro ⟨i, -, htake⟩
    rw [beq_iff_eq] at htake
    refine ⟨hay.toList.take i,
      (hay.toList.drop i).drop needle.toList.length, ?_⟩
    conv_lhs => rw [← List.take_append_drop i hay.toList,
      ← List.take_append_drop needle.toList.length (hay.toList.drop i)]
    rw [htake, List.append_assoc]
  · rintro ⟨pre, post, hsplit⟩
    refine ⟨pre.length, ?_, ?_⟩
    · rw [List.mem_range, hsplit]
      simp only [List.append_assoc, List.length_append]
      omega
    · rw [beq_iff_eq, hsplit, List.append_assoc, List.drop_left, List.take_left]

/-- The transcription outcome of `AudioAnalyzer.transcribe_audio` as the
fusion step consumes it: the `success` flag plus the transcript text,
represented by the upstream lexical scores of that text. -/
structure TranscriptionResult where
  success : Bool
  compound : ℚ
  polarity : ℚ
  subjectivity : ℚ

/-- The `extract_audio_features` outcome as the fusion step consumes it:
either an error dictionary, or features carrying the estimated tone. -/
inductive AudioFeaturesResult where
  | failure : AudioFeaturesResult
  | features (estimated_tone : String) : AudioFeaturesResult

/-- The sentiment part of the `analyze_audio` result: either a
`text_sentiment` record (transcription succeeded) or an `audio_sentiment`
label (tone fallback). -/
inductive AudioSentimentOutcome where
  | text_sentiment (r : CombinedResult) : AudioSentimentOutcome
  | audio_sentiment (label : String) : AudioSentimentOutcome
  deriving DecidableEq

/-- `AudioAnalyzer.analyze_audio`, lines 165-181: transcript first, tone
keywords second (`excited`/`energetic` before `angry`), else neutral;
`unknown` when the feature extraction itself failed. -/
def analyze_audio (tr : TranscriptionResult) (af : AudioFeaturesResult) :
    AudioSentimentOutcome :=
  if tr.success then
    .text_sentiment (combined_sentiment tr.compound tr.polarity tr.subjectivity)
  else
    match af with
    | .failure => .audio_sentiment "unknown"
    | .features tone =>
      if strContains tone "excited" || strContains tone "energetic" then
        .audio_sentiment "positive"
      else if strContains tone "angry" then
        .audio_sentiment "negative"
      else
        .audio_sentiment "neutral"

/-- Claim C8: when transcription succeeded the result delegates entirely to
the text fusion of the transcript, whatever the acoustic features say;
otherwise the tone fallback labels positive iff the tone contains
`excited` or `energetic`, negative iff it contains `angry` (and not the
positive keywords, which are checked first), neutral otherwise — so tone
`calm/subdued` with no transcript is neutral. -/
theorem analyze_audio_transcript_first (c p s : ℚ) (tone : String) :
    (∀ af : AudioFeaturesResult,
      analyze_audio ⟨true, c, p, s⟩ af =
        .text_sentiment (combined_sentiment c p s)) ∧
    (analyze_audio ⟨false, c, p, s⟩ (.features tone) =
        .audio_sentiment "positive" ↔
      occursIn "excited" tone ∨ occursIn "energetic" tone) ∧
    (analyze_audio ⟨false, c, p, s⟩ (.features tone) =
        .audio_sentiment "negative" ↔
      occursIn "angry" tone ∧
        ¬(occursIn "excited" tone ∨ occursIn "energetic" tone)) ∧
    (analyze_audio ⟨false, c, p, s⟩ (.features tone) =
        .audio_sentiment "neutral" ↔
      ¬occursIn "angry" tone ∧
        ¬(occursIn "excited" tone ∨ occursIn "energetic" tone)) ∧
    analyze_audio ⟨false, c, p, s⟩ (.features "calm/subdued") =
      .audio_sentiment "neutral" := by
  refine ⟨fun af => rfl, ?_, ?_, ?_, ?_⟩
  · simp only [analyze_audio, Bool.false_eq_true, if_false]
    rw [← strContains_iff, ← strContains_iff, ← Bool.or_eq_true]
    split_ifs with h1 h2 <;> simp_all
  · simp only [analyze_audio, Bool.false_eq_true, if_false]
    rw [← strContains_iff, ← strContains_iff, ← strContains_iff]
    split_ifs with h1 h2 <;> simp_all
  · simp only [analyze_audio, Bool.false_eq_true, if_false]
    rw [← strContains_iff, ← strContains_iff, ← strContains_iff]
    split_ifs with h1 h2 <;> simp_all
  · simp only [analyze_audio, Bool.false_eq_true, if_false]
    have h1 : strContains "calm/subdued" "excited" = false := by decide
    have h2 : strContains "calm/subdued" "energetic" = false := by decide
    have h3 : strContains "calm/subdued" "angry" = false := by decide
    rw [h1, h2, h3]
    rfl

/-! ## Motion analysis and energy level (`analyzers/video_analyzer.py`)

`analyze_motion` (lines 138-196) classifies the mean of the sampled motion
scores (`> 20` high, `> 8` moderate, else low) and reports `unknown` when
no sample was taken; when the video cannot be opened it returns an error
dictionary, and `analyze_video` reads
`motion_analysis.get('activity_level', 'unknown')` (line 238), so an error
also reads as `unknown`.  Lines 239-244 then map the activity level onto
the `energy_level` axis. -/

/-- The `activity_level` classification of `VideoAnalyzer.analyze_motion`,
lines 175-189, over the sampled motion scores. -/
def activity_level_of (motion_scores : List ℚ) : String :=
  if motion_scores.isEmpty then "unknown"
  else
    let avg_motion := motion_scores.sum / (motion_scores.length : ℚ)
    if avg_motion > 20 then "high_activity"
    else if avg_motion > 8 then "moderate_activity"
    else "low_activity"

/-- Outcome of `analyze_motion`: an error dictionary (video unreadable) or
the sampled motion scores. -/
inductive MotionResult where
  | failure : MotionResult
  | ok (motion_scores : List ℚ) : MotionResult

/-- `results['motion_analysis'].get('activity_level', 'unknown')`,
line 238: the error dictionary has no `activity_level` key, so it reads as
`unknown`. -/
def motion_activity_level : MotionResult → String
  | .failure => "unknown"
  | .ok scores => activity_level_of scores

/-- The activity-to-energy mapping of `analyze_video`, lines 239-244. -/
def energy_level (activity : String) : String :=
  if activity == "high_activity" then "high"
  else if activity == "low_activity" then "low"
  else "moderate"

/-- The `energy_level` field of the full `analyze_video` result. -/
def video_energy_level (m : MotionResult) : String :=
  energy_level (motion_activity_level m)

/-- Claim C10: every video analysis reports an energy level in exactly
`{high, moderate, low}`; any activity level other than `high_activity` /
`low_activity` maps to `moderate`, and in particular the `unknown` activity
reported when motion analysis failed or sampled nothing yields `moderate`,
never `unknown`. -/
theorem video_energy_level_total (m : MotionResult) :
    (video_energy_level m = "high" ∨ video_energy_level m = "moderate" ∨
      video_energy_level m = "low") ∧
    video_energy_level m ≠ "unknown" ∧
    (motion_activity_level m = "unknown" → video_energy_level m = "moderate") ∧
    (∀ a : String, a ≠ "high_activity" → a ≠ "low_activity" →
      energy_level a = "moderate") := by
  have hgen : ∀ a : String, a ≠ "high_activity" → a ≠ "low_activity" →
      energy_level a = "moderate" := by
    intro a h1 h2
    simp [energy_level, h1, h2]
  have hset : ∀ a : String, energy_level a = "high" ∨ energy_level a = "moderate" ∨
      energy_level a = "low" := by
    intro a
    by_cases h1 : a = "high_activity"
    · left
      simp [energy_level, h1]
    · by_cases h2 : a = "low_activity"
      · right; right
        simp [energy_level, h1, h2]
      · right; left
        exact hgen a h1 h2
  refine ⟨hset _, ?_, ?_, hgen⟩
  · rcases hset (motion_activity_level m) with h | h | h <;>
      rw [video_energy_level, h] <;> decide
  · intro hu
    rw [video_energy_level, hu]
    rfl

/-- Witness for C10 at the failed motion analysis. -/
theorem video_energy_level_total_witness :
    video_energy_level MotionResult.failure = "moderate" ∧
    energy_level "unknown" = "moderate" := by
  have h := video_energy_level_total MotionResult.failure
  exact ⟨h.2.2.1 rfl, h.2.2.2 "unknown" (by decide) (by decide)⟩
